import Mathlib

/-!
Verification of the browser client in `src/static/index.js`: a WebSocket-fed
six-slot team overlay.  The file shallowly embeds the script's renderer
(`updateTeam`), the per-image sprite fallback handler (`img.onerror`), the
message handler (`ws.onmessage`) and the reconnect logic (`ws.onclose`) as
executable Lean definitions, and proves the specified properties about them.

Modelling conventions:
* A JavaScript string-valued object property that may be absent is an
  `Option String`; `none` models `undefined`.
* An element of the `pokemon` array is an `Option SlotEntry`; `none` models a
  hole / `undefined` element, and indexing past the end of the array also
  yields `undefined`, i.e. `List.getD i none`.
* Accessing a property of `undefined` throws a `TypeError`; a function that
  can throw returns its DOM effects so far together with a `Bool` recording
  whether it threw.
-/

namespace PokemonOverlay

/-- One element of the incoming `pokemon` array: `{ name?, nickname? }`.
`none` models an absent / `undefined` property. -/
structure SlotEntry where
  name : Option String
  nickname : Option String
deriving Repr, DecidableEq, Inhabited

/-- The observable content of one rendered card `div`: whether it carries the
`empty` CSS class, its `animationDelay` (in tenths of a second, `i * 0.1s`),
the initial `src` of its `img` child if one is created, and the text content
of its `pokemon-name` child. -/
structure Card where
  isEmptyClass : Bool
  animationDelayTenths : Nat
  imageSrc : Option String
  label : String
deriving Repr, DecidableEq, Inhabited

/-- JavaScript `x || y` for strings: `""` is the only falsy string. -/
def jsOrStr (x y : String) : String :=
  if x = "" then y else x

/-- The sprite URL template appearing in the script. -/
def spriteUrl (name ext : String) : String :=
  "/sprites/" ++ name ++ "." ++ ext

/-- The card built by one iteration of the `updateTeam` loop body for index
`i` and a present array element `entry`.  Mirrors lines 37–76 of
`index.js`: `pokemonName = pokemon[i].name || ""`,
`pokemonNickname = pokemon[i].nickname || ""`, `isEmpty = !pokemonName`;
an `img` with `src = /sprites/<name>.png` is created only when not empty;
the label is `"Empty Slot"` when empty, else `pokemonNickname || pokemonName`.
(`x || ""` returns `""` exactly when `x` is `undefined` or `""`, which is
`Option.getD ""` on this model.) -/
def buildCard (i : Nat) (entry : SlotEntry) : Card :=
  let pokemonName := entry.name.getD ""
  let pokemonNickname := entry.nickname.getD ""
  let isEmpty := pokemonName = ""
  { isEmptyClass := isEmpty
    animationDelayTenths := i
    imageSrc := if isEmpty then none else some (spriteUrl pokemonName "png")
    label := if isEmpty then "Empty Slot" else jsOrStr pokemonNickname pokemonName }

/-- The `for (let i = 0; i < 6; i++)` loop of `updateTeam`, with `fuel`
iterations left, current index `i`, and `acc` the cards appended to the grid
so far.  `pokemon.getD i none` is JavaScript indexing (`undefined` past the
end or at a hole); when it is `undefined`, reading `.name` throws a
`TypeError`, so the loop stops with the grid as built and the thrown flag
set. -/
def updateTeamGo (pokemon : List (Option SlotEntry)) :
    Nat → Nat → List Card → List Card × Bool
  | _, 0, acc => (acc, false)
  | i, fuel + 1, acc =>
    match pokemon.getD i none with
    | none => (acc, true)
    | some entry => updateTeamGo pokemon (i + 1) fuel (acc ++ [buildCard i entry])

/-- `updateTeam(pokemon)` (lines 33–78): clears the grid
(`teamGridEl.innerHTML = ""`), then runs the loop for indices `0..5`.
Returns the grid contents after the call and whether it threw. -/
def updateTeam (pokemon : List (Option SlotEntry)) : List Card × Bool :=
  updateTeamGo pokemon 0 6 []

/-- The result of `JSON.parse(event.data)` followed by the `.pokemon` read:
`fail` models a body `JSON.parse` rejects; `ok none` models a body that
parses but has no (or an `undefined`) `pokemon` field; `ok (some l)` models a
parsed `pokemon` array. -/
inductive ParseResult where
  | fail
  | ok (pokemon : Option (List (Option SlotEntry)))
deriving Repr, DecidableEq

/-- Observable outcome of one `ws.onmessage` invocation: the grid contents
afterwards, whether the `catch` branch ran (`console.error` logged), whether
an error escaped the handler, and whether the socket is still open. -/
structure HandlerOutcome where
  grid : List Card
  errorLogged : Bool
  uncaughtError : Bool
  connectionOpen : Bool
deriving Repr, DecidableEq

/-- `ws.onmessage` (lines 12–19), given the parse result of the body and the
grid contents before the message.  The `try`/`catch` wraps both the parse and
`updateTeam`, so no error escapes and nothing closes the socket.  When the
parse fails, `updateTeam` is never reached and the grid is untouched.  When
the body parses but `data.pokemon` is `undefined`, `updateTeam(undefined)`
clears the grid and then throws at `pokemon[0]`.  Otherwise `updateTeam`
runs and its throw, if any, is caught. -/
def wsOnMessage (p : ParseResult) (grid : List Card) : HandlerOutcome :=
  match p with
  | .fail => ⟨grid, true, false, true⟩
  | .ok none => ⟨[], true, false, true⟩
  | .ok (some pokemon) =>
    let r := updateTeam pokemon
    ⟨r.1, r.2, false, true⟩

/-- JavaScript `String.prototype.endsWith`: a character-level suffix test. -/
def jsEndsWith (s post : String) : Bool :=
  post.data.isSuffixOf s.data

/-- Observable state of one sprite `img` and its container: the current
`src`, whether `style.display = "none"` was set, and whether the container
was given the `empty` class. -/
structure ImgState where
  src : String
  displayNone : Bool
  containerEmpty : Bool
deriving Repr, DecidableEq

/-- The state of the `img` as created by `updateTeam` for a non-empty slot
(line 51): `src = /sprites/<name>.png`, visible, container not empty. -/
def imgInit (pokemonName : String) : ImgState :=
  ⟨spriteUrl pokemonName "png", false, false⟩

/-- The `img.onerror` handler (lines 53–64): on a failed load, if the current
`src` ends in `.png` switch it to `.gif`; else if it ends in `.gif` switch to
`.jpg`; else hide the image and mark the container empty. -/
def imgOnError (pokemonName : String) (s : ImgState) : ImgState :=
  if jsEndsWith s.src ".png" then
    { s with src := spriteUrl pokemonName "gif" }
  else if jsEndsWith s.src ".gif" then
    { s with src := spriteUrl pokemonName "jpg" }
  else
    { s with displayNone := true, containerEmpty := true }

/-- The state of the image after `n` consecutive load failures, starting from
the freshly created image. -/
def failRun (pokemonName : String) : Nat → ImgState
  | 0 => imgInit pokemonName
  | n + 1 => imgOnError pokemonName (failRun pokemonName n)

/-- Connection-manager state: how many times `connect()` has been invoked,
and the earliest-fire times (in ms) of the reconnect timers scheduled so
far. -/
structure ConnState where
  connectCalls : Nat
  pendingReconnects : List Nat
deriving Repr, DecidableEq

/-- `connect()` (lines 4–31): opens a fresh socket (counted) and installs the
handlers.  The handlers' effects are modelled separately. -/
def connect (s : ConnState) : ConnState :=
  { s with connectCalls := s.connectCalls + 1 }

/-- The fixed reconnect delay passed to `setTimeout` on line 29. -/
def reconnectDelayMs : Nat := 2000

/-- `ws.onclose` (lines 25–30), fired at absolute time `now`: logs and
schedules exactly one `setTimeout(connect, 2000)`; it invokes nothing
synchronously. -/
def wsOnClose (now : Nat) (s : ConnState) : ConnState :=
  { s with pendingReconnects := s.pendingReconnects ++ [now + reconnectDelayMs] }

/-- `setTimeout` semantics: a callback scheduled at `scheduledAt` with delay
`delayMs` may fire at `fireTime` only if at least the delay has elapsed. -/
def timerCanFire (scheduledAt delayMs fireTime : Nat) : Prop :=
  scheduledAt + delayMs ≤ fireTime

/-- The retry loop: the initial `connect()` at page load, then, after the
`n`-th close event, its reconnect timer fires and invokes `connect()` again.
There is no counter or cap in the script, so the recursion never stops. -/
def retryRun : Nat → ConnState
  | 0 => connect ⟨0, []⟩
  | n + 1 => connect (wsOnClose n (retryRun n))

/-! ## Helper lemmas -/

/-- Two suffixes of the same list with the same length are equal. -/
theorem suffix_eq_of_length_eq {α : Type} {l p q : List α}
    (hp : p <:+ l) (hq : q <:+ l) (h : p.length = q.length) : p = q := by
  obtain ⟨u, hu⟩ := hp
  obtain ⟨v, hv⟩ := hq
  exact List.append_inj_right' (hu.trans hv.symm) h

/-- `spriteUrl nm ext` ends with `"." ++ ext` (stated via character data to
avoid literal-append normalisation). -/
theorem jsEndsWith_spriteUrl (nm ext post : String)
    (hpost : post.data = ".".data ++ ext.data) :
    jsEndsWith (spriteUrl nm ext) post = true := by
  simp only [jsEndsWith, List.isSuffixOf_iff_suffix, spriteUrl, String.data_append,
    hpost, List.append_assoc]
  exact ⟨"/sprites/".data ++ nm.data, by simp [List.append_assoc]⟩

/-- Two suffixes of the same string with the same length have the same
characters. -/
theorem jsEndsWith_unique_len (s p q : String)
    (hp : jsEndsWith s p = true) (hq : jsEndsWith s q = true)
    (hlen : p.data.length = q.data.length) : p.data = q.data := by
  simp only [jsEndsWith, List.isSuffixOf_iff_suffix] at hp hq
  exact suffix_eq_of_length_eq hp hq hlen

/-- `spriteUrl nm ext` does not end with any string of length `1 + |ext|`
other than `"." ++ ext`. -/
theorem jsEndsWith_spriteUrl_false (nm ext post : String)
    (hlen : post.data.length = 1 + ext.data.length)
    (hne : post.data ≠ ".".data ++ ext.data) :
    jsEndsWith (spriteUrl nm ext) post = false := by
  cases h : jsEndsWith (spriteUrl nm ext) post with
  | false => rfl
  | true =>
    have h1 := jsEndsWith_spriteUrl nm ext ("." ++ ext) (by simp)
    have h2 := jsEndsWith_unique_len _ _ _ h h1 (by simp [hlen, Nat.add_comm])
    exact absurd (by simpa using h2) hne

/-- Sprite URLs for the same name and different extensions differ. -/
theorem spriteUrl_ne_of_ext_ne (nm e1 e2 : String) (hne : e1.data ≠ e2.data) :
    spriteUrl nm e1 ≠ spriteUrl nm e2 := by
  intro h
  have hd := congrArg String.data h
  simp only [spriteUrl, String.data_append, List.append_assoc,
    List.append_cancel_left_eq] at hd
  exact hne hd

/-- After the first failed load, the handler switches the source to `.gif`. -/
theorem failRun_one (nm : String) :
    failRun nm 1 = ⟨spriteUrl nm "gif", false, false⟩ := by
  have h := jsEndsWith_spriteUrl nm "png" ".png" (by decide)
  simp [failRun, imgInit, imgOnError, h]

/-- After the second failed load, the handler switches the source to `.jpg`. -/
theorem failRun_two (nm : String) :
    failRun nm 2 = ⟨spriteUrl nm "jpg", false, false⟩ := by
  have hpng := jsEndsWith_spriteUrl_false nm "gif" ".png" (by decide) (by decide)
  have hgif := jsEndsWith_spriteUrl nm "gif" ".gif" (by decide)
  simp [show failRun nm 2 = imgOnError nm (failRun nm 1) from rfl, failRun_one,
    imgOnError, hpng, hgif]

/-- After the third failed load, the handler hides the image and marks the
container empty, leaving the source unchanged. -/
theorem failRun_three (nm : String) :
    failRun nm 3 = ⟨spriteUrl nm "jpg", true, true⟩ := by
  have hpng := jsEndsWith_spriteUrl_false nm "jpg" ".png" (by decide) (by decide)
  have hgif := jsEndsWith_spriteUrl_false nm "jpg" ".gif" (by decide) (by decide)
  simp [show failRun nm 3 = imgOnError nm (failRun nm 2) from rfl, failRun_two,
    imgOnError, hpng, hgif]

/-- The placeholder state after the third failure is a fixpoint: further
error events change nothing and set no new source. -/
theorem failRun_stable (nm : String) (k : Nat) :
    failRun nm (3 + k) = failRun nm 3 := by
  induction k with
  | zero => rfl
  | succ k ih =>
    have hpng := jsEndsWith_spriteUrl_false nm "jpg" ".png" (by decide) (by decide)
    have hgif := jsEndsWith_spriteUrl_false nm "jpg" ".gif" (by decide) (by decide)
    calc failRun nm (3 + (k + 1)) = imgOnError nm (failRun nm (3 + k)) := rfl
      _ = imgOnError nm (failRun nm 3) := by rw [ih]
      _ = failRun nm 3 := by simp [failRun_three, imgOnError, hpng, hgif]

/-- Indexing a mapped-in array of honest entries never yields `undefined`
below the length. -/
theorem getD_map_some (es : List SlotEntry) (j : Nat) (hj : j < es.length) :
    (es.map some).getD j none = some (es.getD j default) := by
  simp [List.getD_eq_getElem?_getD, List.getElem?_eq_getElem, hj]

/-- One loop iteration on a present element builds its card and recurses. -/
theorem updateTeamGo_cons (pokemon : List (Option SlotEntry)) (i fuel : Nat)
    (acc : List Card) (e : SlotEntry) (he : pokemon.getD i none = some e) :
    updateTeamGo pokemon i (fuel + 1) acc
      = updateTeamGo pokemon (i + 1) fuel (acc ++ [buildCard i e]) := by
  simp only [updateTeamGo, he]

/-- One loop iteration on an `undefined` element throws, leaving the grid as
built so far. -/
theorem updateTeamGo_stop (pokemon : List (Option SlotEntry)) (i fuel : Nat)
    (acc : List Card) (he : pokemon.getD i none = none) :
    updateTeamGo pokemon i (fuel + 1) acc = (acc, true) := by
  simp only [updateTeamGo, he]

/-- When every index the loop will visit holds a present entry, the loop
appends one card per index, in index order, and does not throw. -/
theorem updateTeamGo_all_present (pokemon : List (Option SlotEntry)) (fuel : Nat) :
    ∀ (i : Nat) (acc : List Card),
      (∀ j, i ≤ j → j < i + fuel → (pokemon.getD j none).isSome) →
      updateTeamGo pokemon i fuel acc
        = (acc ++ (List.range' i fuel).map
            (fun j => buildCard j ((pokemon.getD j none).getD default)), false) := by
  induction fuel with
  | zero => intro i acc _; simp [updateTeamGo]
  | succ fuel ih =>
    intro i acc h
    obtain ⟨e, he⟩ := Option.isSome_iff_exists.mp (h i (Nat.le_refl i) (by omega))
    rw [updateTeamGo_cons pokemon i fuel acc e he,
      ih (i + 1) _ (fun j h1 h2 => h j (by omega) (by omega))]
    rw [List.range'_succ]
    simp only [List.map_cons, List.append_assoc, List.singleton_append, he,
      Option.getD_some]

/-- When the first `undefined` element the loop meets is at offset `k` from
its start (within its remaining iterations), the loop stops there: the grid
holds exactly the cards for the earlier indices and the thrown flag is set. -/
theorem updateTeamGo_throws (pokemon : List (Option SlotEntry)) (k : Nat) :
    ∀ (fuel i : Nat) (acc : List Card),
      k < fuel →
      (∀ j, i ≤ j → j < i + k → (pokemon.getD j none).isSome) →
      pokemon.getD (i + k) none = none →
      updateTeamGo pokemon i fuel acc
        = (acc ++ (List.range' i k).map
            (fun j => buildCard j ((pokemon.getD j none).getD default)), true) := by
  induction k with
  | zero =>
    intro fuel i acc hk _ hmiss
    cases fuel with
    | zero => omega
    | succ fuel =>
      rw [show i + 0 = i from rfl] at hmiss
      rw [updateTeamGo_stop pokemon i fuel acc hmiss]
      simp
  | succ k ih =>
    intro fuel i acc hk hpres hmiss
    cases fuel with
    | zero => omega
    | succ fuel =>
      obtain ⟨e, he⟩ := Option.isSome_iff_exists.mp (hpres i (Nat.le_refl i) (by omega))
      rw [updateTeamGo_cons pokemon i fuel acc e he,
        ih fuel (i + 1) _ (by omega) (fun j h1 h2 => hpres j (by omega) (by omega))
          (by rw [show i + 1 + k = i + (k + 1) from by omega]; exact hmiss)]
      rw [List.range'_succ]
      simp only [List.map_cons, List.append_assoc, List.singleton_append, he,
        Option.getD_some]

/-- `updateTeam` on ≥ 6 honest entries returns exactly the six cards for
indices 0–5, in order, without throwing. -/
theorem updateTeam_map_some_of_six (es : List SlotEntry) (h : 6 ≤ es.length) :
    updateTeam (es.map some)
      = ((List.range' 0 6).map (fun i => buildCard i (es.getD i default)), false) := by
  rw [updateTeam, updateTeamGo_all_present (es.map some) 6 0 []
    (fun j _ h2 => by rw [getD_map_some es j (by omega)]; rfl)]
  refine congrArg (fun l => (l, false)) ?_
  simp only [List.nil_append]
  refine List.map_congr_left fun j hj => ?_
  have hj6 : j < 6 := by
    have := List.mem_range'.mp hj
    omega
  rw [getD_map_some es j (by omega)]
  rfl

/-- The card at position `i < 6` of the grid rendered from ≥ 6 honest
entries is the card built from the entry at that position. -/
theorem updateTeam_slot (es : List SlotEntry) (h : 6 ≤ es.length) (i : Nat)
    (hi : i < 6) :
    (updateTeam (es.map some)).1.getD i default = buildCard i (es.getD i default) := by
  rw [updateTeam_map_some_of_six es h]
  interval_cases i <;> rfl

/-- A card built from an entry with an absent or empty name is the empty
placeholder card. -/
theorem buildCard_empty (i : Nat) (entry : SlotEntry)
    (h : entry.name = none ∨ entry.name = some "") :
    buildCard i entry = ⟨true, i, none, "Empty Slot"⟩ := by
  rcases h with h | h <;> simp [buildCard, h]

/-- A card built from an entry with a non-empty name and a non-empty
nickname is labelled with the nickname. -/
theorem buildCard_label_nickname (i : Nat) (entry : SlotEntry)
    (hname : entry.name.getD "" ≠ "") (hnick : entry.nickname.getD "" ≠ "") :
    (buildCard i entry).label = entry.nickname.getD "" := by
  simp [buildCard, jsOrStr, hname, hnick]

/-- A card built from an entry with a non-empty name and an absent or empty
nickname is labelled with the name. -/
theorem buildCard_label_name (i : Nat) (entry : SlotEntry)
    (hname : entry.name.getD "" ≠ "") (hnick : entry.nickname.getD "" = "") :
    (buildCard i entry).label = entry.name.getD "" := by
  simp [buildCard, jsOrStr, hname, hnick]

/-! ## Claim theorems -/

/-- C1: for every non-empty slot whose sprite fails to load under every
extension, the fallback handler attempts exactly the 3 URLs
`/sprites/<name>.png`, `/sprites/<name>.gif`, `/sprites/<name>.jpg` in that
fixed order, pairwise distinct (no extension revisited or repeated), and
after the third failure reaches the terminal state with the image hidden and
the container marked empty, changing nothing further (no fourth URL). -/
theorem sprite_fallback_chain (i : Nat) (entry : SlotEntry) (nm : String)
    (hname : entry.name.getD "" = nm) (hnm : nm ≠ "") :
    (buildCard i entry).imageSrc = some (failRun nm 0).src
    ∧ (failRun nm 0).src = spriteUrl nm "png"
    ∧ (failRun nm 1).src = spriteUrl nm "gif"
    ∧ (failRun nm 2).src = spriteUrl nm "jpg"
    ∧ spriteUrl nm "png" ≠ spriteUrl nm "gif"
    ∧ spriteUrl nm "png" ≠ spriteUrl nm "jpg"
    ∧ spriteUrl nm "gif" ≠ spriteUrl nm "jpg"
    ∧ (failRun nm 0).displayNone = false ∧ (failRun nm 0).containerEmpty = false
    ∧ (failRun nm 1).displayNone = false ∧ (failRun nm 1).containerEmpty = false
    ∧ (failRun nm 2).displayNone = false ∧ (failRun nm 2).containerEmpty = false
    ∧ (failRun nm 3).src = (failRun nm 2).src
    ∧ (failRun nm 3).displayNone = true
    ∧ (failRun nm 3).containerEmpty = true
    ∧ (∀ k, failRun nm (3 + k) = failRun nm 3) := by
  refine ⟨?_, rfl, ?_, ?_, spriteUrl_ne_of_ext_ne nm "png" "gif" (by decide),
    spriteUrl_ne_of_ext_ne nm "png" "jpg" (by decide),
    spriteUrl_ne_of_ext_ne nm "gif" "jpg" (by decide),
    rfl, rfl, ?_, ?_, ?_, ?_, ?_, ?_, ?_, failRun_stable nm⟩
  · simp [buildCard, hname, hnm, failRun, imgInit]
  · rw [failRun_one]
  · rw [failRun_two]
  · rw [failRun_one]
  · rw [failRun_one]
  · rw [failRun_two]
  · rw [failRun_two]
  · rw [failRun_three, failRun_two]
  · rw [failRun_three]
  · rw [failRun_three]

/-- Witness for C1 at a concrete slot. -/
theorem sprite_fallback_chain_witness :
    (buildCard 0 ⟨some "pikachu", none⟩).imageSrc = some (failRun "pikachu" 0).src
    ∧ (failRun "pikachu" 3).displayNone = true := by
  have h := sprite_fallback_chain 0 ⟨some "pikachu", none⟩ "pikachu" rfl (by decide)
  exact ⟨h.1, h.2.2.2.2.2.2.2.2.2.2.2.2.2.2.2.1⟩

/-- C2: for every payload whose pokemon sequence has at least 6 entries,
`updateTeam` renders exactly 6 cards, one per index 0–5 in input order,
without throwing; entries past index 5 are ignored (replacing them changes
nothing); and the grid has exactly 6 cards after the call. -/
theorem updateTeam_renders_six (es : List SlotEntry) (h : 6 ≤ es.length) :
    updateTeam (es.map some)
      = ((List.range' 0 6).map (fun i => buildCard i (es.getD i default)), false)
    ∧ (updateTeam (es.map some)).1.length = 6
    ∧ ∀ tail : List SlotEntry,
        updateTeam ((es.take 6 ++ tail).map some) = updateTeam (es.map some) := by
  refine ⟨updateTeam_map_some_of_six es h, ?_, ?_⟩
  · rw [updateTeam_map_some_of_six es h]; rfl
  · intro tail
    rw [updateTeam_map_some_of_six es h,
      updateTeam_map_some_of_six (es.take 6 ++ tail)
        (by simp [List.length_append, List.length_take]; omega)]
    refine congrArg (fun l => (l, false)) (List.map_congr_left fun j hj => ?_)
    have hj6 : j < 6 := by
      have := List.mem_range'.mp hj
      omega
    rw [List.getD_append _ _ _ _ (by simp [List.length_take]; omega),
      List.getD_eq_getElem?_getD, List.getElem?_take_of_lt hj6,
      ← List.getD_eq_getElem?_getD]

/-- Witness for C2 at a concrete 6-entry payload. -/
theorem updateTeam_renders_six_witness :
    (updateTeam ((List.replicate 6 (⟨some "pikachu", none⟩ : SlotEntry)).map some)).1.length
      = 6 :=
  (updateTeam_renders_six (List.replicate 6 ⟨some "pikachu", none⟩) (by decide)).2.1

/-- C3: a message whose body fails to parse is logged and discarded: the
`catch` runs, no error escapes the handler, the connection stays open, and
the grid is exactly what it was before the message. -/
theorem wsOnMessage_parse_fail (g : List Card) :
    wsOnMessage .fail g = ⟨g, true, false, true⟩ := rfl

/-- C4: an input sequence of fewer than 6 entries makes `updateTeam` throw
at the first missing index — its length — surfacing the error to the caller;
only the cards for the existing indices were built. -/
theorem updateTeam_short_throws (es : List SlotEntry) (h : es.length < 6) :
    updateTeam (es.map some)
      = ((List.range' 0 es.length).map (fun i => buildCard i (es.getD i default)), true)
    ∧ (updateTeam (es.map some)).2 = true
    ∧ (updateTeam (es.map some)).1.length = es.length := by
  have hmain : updateTeam (es.map some)
      = ((List.range' 0 es.length).map
          (fun i => buildCard i (es.getD i default)), true) := by
    rw [updateTeam]
    have hgo := updateTeamGo_throws (es.map some) es.length 6 0 [] h
      (fun j _ h2 => by rw [getD_map_some es j (by omega)]; rfl)
      (by rw [Nat.zero_add]; exact List.getD_eq_default _ _ (by simp))
    rw [hgo, List.nil_append]
    refine congrArg (fun l => (l, true)) (List.map_congr_left fun j hj => ?_)
    have hjlen : j < es.length := by
      have := List.mem_range'.mp hj
      omega
    rw [getD_map_some es j hjlen]
    rfl
  refine ⟨hmain, ?_, ?_⟩ <;> rw [hmain]
  simp

/-- Witness for C4 at a concrete 1-entry payload. -/
theorem updateTeam_short_throws_witness :
    (updateTeam (([⟨some "pikachu", none⟩] : List SlotEntry).map some)).2 = true :=
  (updateTeam_short_throws [⟨some "pikachu", none⟩] (by decide)).2.1

/-- C5 counterexample: a pokemon sequence whose entry at index 1 is missing
is not rendered with an empty placeholder there — `updateTeam` throws, only
the card for index 0 exists, and the grid does not have 6 slots. -/
theorem missing_entry_not_empty_slot_cex :
    updateTeam [some ⟨some "pikachu", none⟩]
      = ([⟨false, 0, some "/sprites/pikachu.png", "pikachu"⟩], true)
    ∧ (updateTeam [some ⟨some "pikachu", none⟩]).1.length ≠ 6 := by
  decide

/-- C5 amended: an entry that is present at index 0–5 but whose `name`
field is missing/undefined is treated as an empty slot at that position,
while an entry that is itself missing or undefined at some index 0–5 makes
`updateTeam` throw at that index instead of rendering an empty slot there
(the grid keeps only the cards for the earlier indices). -/
theorem missing_name_empty_slot_missing_entry_throws
    (es : List SlotEntry) (h6 : 6 ≤ es.length) (i : Nat) (hi : i < 6)
    (hname : (es.getD i default).name = none)
    (l : List (Option SlotEntry)) (k : Nat) (hk : k < 6)
    (hpres : ∀ j, j < k → (l.getD j none).isSome) (hmiss : l.getD k none = none) :
    (updateTeam (es.map some)).1.getD i default = ⟨true, i, none, "Empty Slot"⟩
    ∧ (updateTeam l).2 = true ∧ (updateTeam l).1.length = k := by
  have hthrow : updateTeam l
      = ((List.range' 0 k).map
          (fun j => buildCard j ((l.getD j none).getD default)), true) := by
    rw [updateTeam]
    have hgo := updateTeamGo_throws l k 6 0 [] hk (fun j _ h2 => hpres j (by omega))
      (by rw [Nat.zero_add]; exact hmiss)
    rw [hgo, List.nil_append]
  refine ⟨?_, by rw [hthrow], by rw [hthrow]; simp⟩
  rw [updateTeam_slot es h6 i hi]
  exact buildCard_empty i _ (Or.inl hname)

/-- Witness for the amended C5 at concrete inputs. -/
theorem missing_name_empty_slot_missing_entry_throws_witness :
    (updateTeam ((List.replicate 6 (⟨none, none⟩ : SlotEntry)).map some)).1.getD 0 default
      = ⟨true, 0, none, "Empty Slot"⟩
    ∧ (updateTeam ([] : List (Option SlotEntry))).2 = true := by
  have h := missing_name_empty_slot_missing_entry_throws
    (List.replicate 6 ⟨none, none⟩) (by decide) 0 (by decide) (by decide)
    [] 0 (by decide) (fun j hj => absurd hj (by omega)) (by decide)
  exact ⟨h.1, h.2.1⟩

/-- C6: every close event schedules exactly one reconnect (appending a single
timer and invoking nothing synchronously), the delay is the fixed 2000 ms, a
scheduled reconnect cannot fire sooner than 2000 ms after the close, and the
retry loop is unbounded — after `n` close/fire cycles `connect` has run
`n + 1` times, with no maximum. -/
theorem onclose_schedules_single_reconnect :
    (∀ (now : Nat) (s : ConnState),
      (wsOnClose now s).pendingReconnects
          = s.pendingReconnects ++ [now + reconnectDelayMs]
        ∧ (wsOnClose now s).connectCalls = s.connectCalls)
    ∧ reconnectDelayMs = 2000
    ∧ (∀ now fireTime, timerCanFire now reconnectDelayMs fireTime →
        now + 2000 ≤ fireTime)
    ∧ (∀ n, (retryRun n).connectCalls = n + 1) := by
  refine ⟨fun now s => ⟨rfl, rfl⟩, rfl, fun now ft h => h, fun n => ?_⟩
  induction n with
  | zero => rfl
  | succ n ih => simpa [retryRun, connect, wsOnClose] using ih

/-- Witness for C6 at concrete times and states. -/
theorem onclose_schedules_single_reconnect_witness :
    (wsOnClose 7 ⟨2, [100]⟩).pendingReconnects = [100, 2007]
    ∧ 7 + 2000 ≤ 2007
    ∧ (retryRun 4).connectCalls = 5 := by
  refine ⟨?_, ?_, onclose_schedules_single_reconnect.2.2.2 4⟩
  · rw [(onclose_schedules_single_reconnect.1 7 ⟨2, [100]⟩).1]; rfl
  · exact onclose_schedules_single_reconnect.2.2.1 7 2007
      (by simp [timerCanFire, reconnectDelayMs])

/-- C7: a slot entry whose name is absent or the empty string renders as an
empty slot — `empty` class set, no image element, label `"Empty Slot"` —
regardless of its nickname. -/
theorem empty_name_placeholder (es : List SlotEntry) (h6 : 6 ≤ es.length)
    (i : Nat) (hi : i < 6)
    (hname : (es.getD i default).name = none ∨ (es.getD i default).name = some "") :
    (updateTeam (es.map some)).1.getD i default = ⟨true, i, none, "Empty Slot"⟩ := by
  rw [updateTeam_slot es h6 i hi]
  exact buildCard_empty i _ hname

/-- Witness for C7: an empty-name entry with a nickname still renders the
placeholder. -/
theorem empty_name_placeholder_witness :
    (updateTeam (([⟨some "", some "Sparky"⟩, ⟨none, none⟩, ⟨none, none⟩,
        ⟨none, none⟩, ⟨none, none⟩, ⟨none, none⟩] : List SlotEntry).map some)).1.getD
        0 default
      = ⟨true, 0, none, "Empty Slot"⟩ :=
  empty_name_placeholder
    [⟨some "", some "Sparky"⟩, ⟨none, none⟩, ⟨none, none⟩, ⟨none, none⟩,
      ⟨none, none⟩, ⟨none, none⟩] (by decide) 0 (by decide) (Or.inr (by decide))

/-- C8: for a slot entry with a non-empty name, the rendered label is the
nickname when the nickname is present (a non-empty string), and the name
when the nickname is absent. -/
theorem nonempty_name_label (es : List SlotEntry) (h6 : 6 ≤ es.length)
    (i : Nat) (hi : i < 6) (hname : (es.getD i default).name.getD "" ≠ "") :
    ((es.getD i default).nickname.getD "" ≠ "" →
      ((updateTeam (es.map some)).1.getD i default).label
        = (es.getD i default).nickname.getD "")
    ∧ ((es.getD i default).nickname = none →
      ((updateTeam (es.map some)).1.getD i default).label
        = (es.getD i default).name.getD "") := by
  rw [updateTeam_slot es h6 i hi]
  constructor
  · intro hnick
    exact buildCard_label_nickname i _ hname hnick
  · intro hnick
    exact buildCard_label_name i _ hname (by rw [hnick]; rfl)

/-- Witness for C8: nickname shown when set, name shown when absent. -/
theorem nonempty_name_label_witness :
    ((updateTeam (([⟨some "pikachu", some "Sparky"⟩, ⟨none, none⟩, ⟨none, none⟩,
        ⟨none, none⟩, ⟨none, none⟩, ⟨none, none⟩] : List SlotEntry).map some)).1.getD
        0 default).label = "Sparky"
    ∧ ((updateTeam (([⟨some "eevee", none⟩, ⟨none, none⟩, ⟨none, none⟩,
        ⟨none, none⟩, ⟨none, none⟩, ⟨none, none⟩] : List SlotEntry).map some)).1.getD
        0 default).label = "eevee" := by
  constructor
  · exact (nonempty_name_label
      [⟨some "pikachu", some "Sparky"⟩, ⟨none, none⟩, ⟨none, none⟩, ⟨none, none⟩,
        ⟨none, none⟩, ⟨none, none⟩] (by decide) 0 (by decide) (by decide)).1 (by decide)
  · exact (nonempty_name_label
      [⟨some "eevee", none⟩, ⟨none, none⟩, ⟨none, none⟩, ⟨none, none⟩,
        ⟨none, none⟩, ⟨none, none⟩] (by decide) 0 (by decide) (by decide)).2 (by decide)

/-- C9: a message that parses but whose pokemon array makes `updateTeam`
throw at index `k < 6` is caught: the handler logs it, no error escapes,
the connection stays open, and the grid was cleared and now holds exactly
the `k` cards built before the throw. -/
theorem caught_throw_partial_grid (l : List (Option SlotEntry)) (g : List Card)
    (k : Nat) (hk : k < 6) (hpres : ∀ j, j < k → (l.getD j none).isSome)
    (hmiss : l.getD k none = none) :
    wsOnMessage (.ok (some l)) g
      = ⟨(List.range' 0 k).map (fun j => buildCard j ((l.getD j none).getD default)),
         true, false, true⟩
    ∧ (wsOnMessage (.ok (some l)) g).grid.length = k := by
  have hthrow : updateTeam l
      = ((List.range' 0 k).map
          (fun j => buildCard j ((l.getD j none).getD default)), true) := by
    rw [updateTeam]
    have hgo := updateTeamGo_throws l k 6 0 [] hk (fun j _ h2 => hpres j (by omega))
      (by rw [Nat.zero_add]; exact hmiss)
    rw [hgo, List.nil_append]
  constructor
  · show (⟨(updateTeam l).1, (updateTeam l).2, false, true⟩ : HandlerOutcome) = _
    rw [hthrow]
  · show (updateTeam l).1.length = k
    rw [hthrow]
    simp

/-- Witness for C9: a 1-entry payload arriving over a 6-card grid leaves a
1-card grid with the error caught. -/
theorem caught_throw_partial_grid_witness :
    (wsOnMessage (.ok (some [some ⟨some "pikachu", none⟩])) []).grid.length = 1 :=
  (caught_throw_partial_grid [some ⟨some "pikachu", none⟩] [] 1 (by decide)
    (fun j hj => by interval_cases j; decide) (by decide)).2

/-- C10: a slot entry with a non-empty name whose nickname is present but
equal to the empty string renders the name as its label (the empty nickname
is treated as absent). -/
theorem empty_string_nickname_label (es : List SlotEntry) (h6 : 6 ≤ es.length)
    (i : Nat) (hi : i < 6) (hname : (es.getD i default).name.getD "" ≠ "")
    (hnick : (es.getD i default).nickname = some "") :
    ((updateTeam (es.map some)).1.getD i default).label
      = (es.getD i default).name.getD "" := by
  rw [updateTeam_slot es h6 i hi]
  exact buildCard_label_name i _ hname (by rw [hnick]; rfl)

/-- Witness for C10 at a concrete entry. -/
theorem empty_string_nickname_label_witness :
    ((updateTeam (([⟨some "pikachu", some ""⟩, ⟨none, none⟩, ⟨none, none⟩,
        ⟨none, none⟩, ⟨none, none⟩, ⟨none, none⟩] : List SlotEntry).map some)).1.getD
        0 default).label = "pikachu" :=
  empty_string_nickname_label
    [⟨some "pikachu", some ""⟩, ⟨none, none⟩, ⟨none, none⟩, ⟨none, none⟩,
      ⟨none, none⟩, ⟨none, none⟩] (by decide) 0 (by decide) (by decide) (by decide)

example :
    updateTeam [some ⟨some "pikachu", some "Sparky"⟩, some ⟨none, none⟩,
      some ⟨none, none⟩, some ⟨none, none⟩, some ⟨none, none⟩, some ⟨none, none⟩]
      = ([⟨false, 0, some "/sprites/pikachu.png", "Sparky"⟩,
          ⟨true, 1, none, "Empty Slot"⟩, ⟨true, 2, none, "Empty Slot"⟩,
          ⟨true, 3, none, "Empty Slot"⟩, ⟨true, 4, none, "Empty Slot"⟩,
          ⟨true, 5, none, "Empty Slot"⟩], false) := by decide

example : updateTeam [some ⟨some "pikachu", none⟩] =
    ([⟨false, 0, some "/sprites/pikachu.png", "pikachu"⟩], true) := by decide

example : failRun "mew" 3 = ⟨"/sprites/mew.jpg", true, true⟩ := by decide

end PokemonOverlay
